import Mathlib

/-!
Verification of the `mygeth` state-transition orchestrator and instruction
tables against their natural-language specification.

The embedding follows the Go sources:
* `core` package state transition (`StateTransition`, `preCheck`,
  `TransitionDb`, `ApplyMessage`): stateful Go code becomes explicit
  state passing over a functional world-state map.
* `core/vm/jump_table.go` (`operation`, `NewFrontierInstructionSet`,
  `NewHomesteadInstructionSet`): Go function-pointer fields become
  `Option` of symbolic function identifiers; the 256-entry Go array
  becomes a function from opcode byte to descriptor.

The world-state capability (`vm.StateDB`), the gas pool and the EVM
entry points (`EVM.Create`, `EVM.Call`) are declared and consumed by the
sources under verification but defined elsewhere; where a claim needs
their behaviour they are modelled from the specification, as marked on
each definition.
-/

set_option maxHeartbeats 2000000

set_option maxRecDepth 16384

namespace MyGeth

/-- An address; `common.Address` in the source, embedded as `Nat`
(the zero value `common.Address{}` is `0`). -/
def Address := Nat

instance : DecidableEq Address := fun a b => Nat.decEq a b

instance : OfNat Address n := ⟨(n : Nat)⟩

/-- The per-address account data the state transition reads and writes:
a nonce and a balance. The nonce is a Go `uint64`, embedded as `Nat` with the
wrap made explicit (`% 2 ^ 64`) at the one place the source computes on it,
the increment in `TransitionDb`; the balance is a `*big.Int`, so unbounded
`Nat` is faithful. Code and storage are not touched by the orchestrator and
are omitted. -/
structure Account where
  nonce : Nat
  balance : Nat
deriving DecidableEq, Repr

/-- Modelled from the spec: the World State capability (spec section 6) is an
external account ledger keyed by address; `none` means the account does not
exist. The orchestrator only consumes this capability. -/
def StateDB := Address → Option Account

/-- `StateDB.Exist`: existence check for an address. -/
def exist (s : StateDB) (a : Address) : Bool :=
  (s a).isSome

/-- Modelled from the spec: `StateDB.CreateAccount` creates a fresh account
(zero balance, zero nonce); on an already-existing address it must not
clobber the balance or nonce already present (spec section 3), so an
existing account is left as is. In the sources it is only ever invoked
guarded by `!Exist`. -/
def createAccount (s : StateDB) (a : Address) : StateDB :=
  fun x => if x = a then
    match s a with
    | some acc => some acc
    | none => some ⟨0, 0⟩
  else s x

/-- `StateDB.GetNonce`: the nonce of an account, `0` for a non-existent one. -/
def getNonce (s : StateDB) (a : Address) : Nat :=
  match s a with
  | some acc => acc.nonce
  | none => 0

/-- `StateDB.GetBalance`: the balance of an account, `0` for a non-existent
one. -/
def getBalance (s : StateDB) (a : Address) : Nat :=
  match s a with
  | some acc => acc.balance
  | none => 0

/-- `StateDB.SetNonce`: overwrite the nonce of an account, materializing the
account if absent. -/
def setNonce (s : StateDB) (a : Address) (n : Nat) : StateDB :=
  fun x => if x = a then
    match s a with
    | some acc => some { acc with nonce := n }
    | none => some ⟨n, 0⟩
  else s x

/-- Transfer `v` from `sender` to `recipient`: `SubBalance` then
`AddBalance`. Only used by the spec-modelled EVM call path. -/
def transfer (s : StateDB) (sender recipient : Address) (v : Nat) : StateDB :=
  let s1 : StateDB := fun x => if x = sender then
      match s sender with
      | some acc => some { acc with balance := acc.balance - v }
      | none => some ⟨0, 0⟩
    else s x
  fun x => if x = recipient then
    match s1 recipient with
    | some acc => some { acc with balance := acc.balance + v }
    | none => some ⟨0, v⟩
  else s1 x

/-- VM-level errors the dispatched execution can return. `insufficientBalance`
is `vm.ErrInsufficientBalance`; every other error value is represented by
`other` with a numeric code. -/
inductive VMErr where
  | insufficientBalance
  | other (code : Nat)
deriving DecidableEq, Repr

/-- The transition's own error values: the `fmt.Errorf("invalid nonce: have
%d, expected %d", ...)` value from `preCheck`, carrying the message's declared
nonce and the account's current nonce, or a VM error propagated by
`TransitionDb`. -/
inductive Err where
  | invalidNonce (declared expected : Nat)
  | vmError (v : VMErr)
deriving DecidableEq, Repr

/-- `Message`: a transaction-like request (`core.Message` interface).
`to = none` signals contract creation. -/
structure Message where
  From : Address
  To : Option Address
  Value : Nat
  Nonce : Nat
  CheckNonce : Bool
  Data : List Nat
deriving DecidableEq

/-- The EVM entry points `TransitionDb` dispatches to. In the Go source these
mutate `evm.StateDB` in place and return `(ret, vmerr)` (`Call`) or
`(ret, contractAddr, vmerr)` (`Create`); here the state is threaded
explicitly. The orchestrator theorems are parametric in this structure. -/
structure EVM where
  call : StateDB → Address → Address → List Nat → Nat → StateDB × List Nat × Option VMErr
  create : StateDB → Address → List Nat → Nat → StateDB × List Nat × Address × Option VMErr

/-- `StateTransition.from`: materialize the sender account if absent and
return the updated state with the sender address
(`vm.AccountRef(msg.From())`). -/
def stFrom (s : StateDB) (msg : Message) : StateDB × Address :=
  let f := msg.From
  if exist s f then (s, f) else (createAccount s f, f)

/-- `StateTransition.to`: for contract creation return the zero
`vm.AccountRef{}`; otherwise materialize the recipient account if absent and
return it. (The Go `st.msg == nil` guard is dead in this embedding: a message
is always present.) -/
def stTo (s : StateDB) (msg : Message) : StateDB × Address :=
  match msg.To with
  | none => (s, 0)
  | some t => if exist s t then (s, t) else (createAccount s t, t)

/-- `StateTransition.preCheck`: materialize the sender, then, when the message
demands nonce checking, compare the account's current nonce with the declared
one; a mismatch yields the `invalid nonce` error. -/
def preCheck (s : StateDB) (msg : Message) : StateDB × Option Err :=
  let s1 := (stFrom s msg).1
  let sender := (stFrom s msg).2
  if msg.CheckNonce then
    if getNonce s1 sender ≠ msg.Nonce then
      (s1, some (.invalidNonce msg.Nonce (getNonce s1 sender)))
    else (s1, none)
  else (s1, none)

/-- The result of `TransitionDb`: the final world state together with the Go
return triple `(ret []byte, failed bool, err error)`. -/
structure TransitionResult where
  state : StateDB
  ret : List Nat
  failed : Bool
  err : Option Err

/-- The state handed to `evm.Call` in the call branch of `TransitionDb`, and
the sender/recipient addresses: sender already materialized by `preCheck`,
`st.from()` evaluated again (a no-op on the now-existing account), the
sender's nonce incremented — the Go `GetNonce(...)+1` is `uint64` addition,
so the successor is taken `% 2 ^ 64` — then `st.to()` materializing the
recipient. -/
def callDispatch (s : StateDB) (msg : Message) : StateDB × Address × Address :=
  let s1 := (stFrom s msg).1
  let s2 := (stFrom s1 msg).1
  let sender := (stFrom s1 msg).2
  let s3 := setNonce s2 sender ((getNonce s2 sender + 1) % 2 ^ 64)
  ((stTo s3 msg).1, sender, (stTo s3 msg).2)

/-- The state handed to `evm.Create` in the creation branch of
`TransitionDb`: sender materialized by `preCheck` and by the second
`st.from()`, nothing else touched. -/
def createDispatch (s : StateDB) (msg : Message) : StateDB × Address :=
  stFrom (stFrom s msg).1 msg

/-- The outcome classification at the end of `TransitionDb`: the
insufficient-balance VM error is promoted to the transition's own error with
`ret = nil` and `failed = false`; any other VM error sets `failed` with
`err = nil`; no VM error returns the data with `failed = false`, `err = nil`. -/
def classify (s : StateDB) (ret : List Nat) (vmerr : Option VMErr) : TransitionResult :=
  if vmerr = some .insufficientBalance then
    ⟨s, [], false, some (.vmError .insufficientBalance)⟩
  else
    ⟨s, ret, vmerr.isSome, none⟩

/-- The dispatched execution of `TransitionDb`: `contractCreation` is
`msg.To() == nil`; the creation branch runs `evm.Create(sender, st.data,
st.value)` (discarding the contract address), the call branch runs
`evm.Call(sender, st.to().Address(), st.data, st.value)` after the nonce
increment. The state handed over is the one `preCheck` left behind:
`preCheck`'s only mutation is `st.from()`'s sender materialization, which
`callDispatch`/`createDispatch` begin by recomputing (materialization is
idempotent, so the recomputation equals the threaded state). -/
def dispatchResult (evm : EVM) (msg : Message) (s : StateDB) :
    StateDB × List Nat × Option VMErr :=
  if msg.To.isNone then
    let sd := createDispatch s msg
    let r := evm.create sd.1 sd.2 msg.Data msg.Value
    (r.1, r.2.1, r.2.2.2)
  else
    let cd := callDispatch s msg
    let r := evm.call cd.1 cd.2.1 cd.2.2 msg.Data msg.Value
    (r.1, r.2.1, r.2.2)

/-- `StateTransition.TransitionDb`: pre-check (returning `ret = nil`,
`failed = false` and the error when it fails), then dispatch to the creation
or call path, then classify the VM outcome. -/
def TransitionDb (evm : EVM) (msg : Message) (s : StateDB) : TransitionResult :=
  match (preCheck s msg).2 with
  | some e => ⟨(preCheck s msg).1, [], false, some e⟩
  | none =>
    let d := dispatchResult evm msg s
    classify d.1 d.2.1 d.2.2

/-- The result of `ApplyMessage`: the transition result together with the gas
pool's remaining capacity after the transition. -/
structure ApplyResult where
  state : StateDB
  gp : Nat
  ret : List Nat
  failed : Bool
  err : Option Err

/-- `ApplyMessage`: build the state transition and run `TransitionDb`. The
gas pool `gp` is stored in the `StateTransition` but `TransitionDb` never
invokes `SubGas` on it, so it is returned unchanged. -/
def ApplyMessage (evm : EVM) (msg : Message) (gp : Nat) (s : StateDB) : ApplyResult :=
  let r := TransitionDb evm msg s
  ⟨r.state, gp, r.ret, r.failed, r.err⟩

/-- Modelled from the spec: `GasPool.SubGas(amount)` fails when the requested
amount exceeds the remaining pool and otherwise debits it in full (spec
sections 3 and 6); the `GasPool` definition is not under the sources in view. -/
def subGas (pool amount : Nat) : Option Nat :=
  if pool < amount then none else some (pool - amount)

/-- Modelled from the spec: the EVM call path first performs the mandatory
value transfer; insufficient balance to perform it yields
`vm.ErrInsufficientBalance` before any code execution, with no state change
(spec section 4.5); with sufficient balance the value moves and a recipient
without code returns no data and no error (spec section 8, first scenario). -/
def evmSpecCall (s : StateDB) (sender recipient : Address) (_data : List Nat) (value : Nat) :
    StateDB × List Nat × Option VMErr :=
  if getBalance s sender < value then
    (s, [], some .insufficientBalance)
  else
    (transfer s sender recipient value, [], none)

/-- Modelled from the spec: the EVM creation path likewise checks the balance
for the mandatory value transfer first (spec section 4.5); the body of
contract creation is outside the claims settled against this model, so a
successful creation is represented only by its error-free outcome. -/
def evmSpecCreate (s : StateDB) (sender : Address) (_code : List Nat) (value : Nat) :
    StateDB × List Nat × Address × Option VMErr :=
  if getBalance s sender < value then
    (s, [], 0, some .insufficientBalance)
  else
    (s, [], 0, none)

/-- The spec-modelled EVM used to instantiate the parametric orchestrator
theorems on concrete runs. -/
def evmSpec : EVM :=
  ⟨evmSpecCall, evmSpecCreate⟩

/-- The empty world state. -/
def emptyState : StateDB := fun _ => none

/-- A world state holding exactly one account. -/
def singleState (a : Address) (acc : Account) : StateDB :=
  fun x => if x = a then some acc else none


/-! ## Instruction tables (`core/vm/jump_table.go`)

Function-pointer fields of `operation` are embedded symbolically: each
named behaviour, stack validator or memory-size function of the `vm`
package becomes a constructor, `none` is the Go nil pointer. -/

/-- Symbolic names of the `executionFunc` values installed in the tables;
the parameterized makers carry their Go arguments. -/
inductive ExecFn where
  | opStop
  | opAdd
  | opMul
  | opSub
  | opDiv
  | opSdiv
  | opMod
  | opSmod
  | opAddmod
  | opMulmod
  | opExp
  | opSignExtend
  | opLt
  | opGt
  | opSlt
  | opSgt
  | opEq
  | opIszero
  | opAnd
  | opXor
  | opOr
  | opNot
  | opByte
  | opSha3
  | opAddress
  | opBalance
  | opOrigin
  | opCaller
  | opCallValue
  | opCalldataLoad
  | opCalldataSize
  | opCalldataCopy
  | opCodeSize
  | opCodeCopy
  | opExtCodeSize
  | opExtCodeCopy
  | opBlockhash
  | opCoinbase
  | opTimestamp
  | opNumber
  | opDifficulty
  | opPop
  | opMload
  | opMstore
  | opMstore8
  | opSload
  | opSstore
  | opJump
  | opJumpi
  | opPc
  | opMsize
  | opJumpdest
  | makePush (n len : Nat)
  | makeDup (n : Nat)
  | makeSwap (n : Nat)
  | makeLog (n : Nat)
  | opCreate
  | opCall
  | opCallCode
  | opReturn
  | opSuicide
  | opDelegateCall
deriving Repr

/-- An injective numeric code for `ExecFn`, used to decide equality without
the very large derived matcher. -/
def ExecFn.toCode : ExecFn → Nat × Nat × Nat
  | .opStop => (0, 0, 0)
  | .opAdd => (1, 0, 0)
  | .opMul => (2, 0, 0)
  | .opSub => (3, 0, 0)
  | .opDiv => (4, 0, 0)
  | .opSdiv => (5, 0, 0)
  | .opMod => (6, 0, 0)
  | .opSmod => (7, 0, 0)
  | .opAddmod => (8, 0, 0)
  | .opMulmod => (9, 0, 0)
  | .opExp => (10, 0, 0)
  | .opSignExtend => (11, 0, 0)
  | .opLt => (12, 0, 0)
  | .opGt => (13, 0, 0)
  | .opSlt => (14, 0, 0)
  | .opSgt => (15, 0, 0)
  | .opEq => (16, 0, 0)
  | .opIszero => (17, 0, 0)
  | .opAnd => (18, 0, 0)
  | .opXor => (19, 0, 0)
  | .opOr => (20, 0, 0)
  | .opNot => (21, 0, 0)
  | .opByte => (22, 0, 0)
  | .opSha3 => (23, 0, 0)
  | .opAddress => (24, 0, 0)
  | .opBalance => (25, 0, 0)
  | .opOrigin => (26, 0, 0)
  | .opCaller => (27, 0, 0)
  | .opCallValue => (28, 0, 0)
  | .opCalldataLoad => (29, 0, 0)
  | .opCalldataSize => (30, 0, 0)
  | .opCalldataCopy => (31, 0, 0)
  | .opCodeSize => (32, 0, 0)
  | .opCodeCopy => (33, 0, 0)
  | .opExtCodeSize => (34, 0, 0)
  | .opExtCodeCopy => (35, 0, 0)
  | .opBlockhash => (36, 0, 0)
  | .opCoinbase => (37, 0, 0)
  | .opTimestamp => (38, 0, 0)
  | .opNumber => (39, 0, 0)
  | .opDifficulty => (40, 0, 0)
  | .opPop => (41, 0, 0)
  | .opMload => (42, 0, 0)
  | .opMstore => (43, 0, 0)
  | .opMstore8 => (44, 0, 0)
  | .opSload => (45, 0, 0)
  | .opSstore => (46, 0, 0)
  | .opJump => (47, 0, 0)
  | .opJumpi => (48, 0, 0)
  | .opPc => (49, 0, 0)
  | .opMsize => (50, 0, 0)
  | .opJumpdest => (51, 0, 0)
  | .makePush n len => (100, n, len)
  | .makeDup n => (101, n, 0)
  | .makeSwap n => (102, n, 0)
  | .makeLog n => (103, n, 0)
  | .opCreate => (104, 0, 0)
  | .opCall => (105, 0, 0)
  | .opCallCode => (106, 0, 0)
  | .opReturn => (107, 0, 0)
  | .opSuicide => (108, 0, 0)
  | .opDelegateCall => (109, 0, 0)

/-- Partial inverse of `ExecFn.toCode` (right inverse on its image). -/
def ExecFn.ofCode : Nat × Nat × Nat → Option ExecFn
  | (0, _, _) => some .opStop
  | (1, _, _) => some .opAdd
  | (2, _, _) => some .opMul
  | (3, _, _) => some .opSub
  | (4, _, _) => some .opDiv
  | (5, _, _) => some .opSdiv
  | (6, _, _) => some .opMod
  | (7, _, _) => some .opSmod
  | (8, _, _) => some .opAddmod
  | (9, _, _) => some .opMulmod
  | (10, _, _) => some .opExp
  | (11, _, _) => some .opSignExtend
  | (12, _, _) => some .opLt
  | (13, _, _) => some .opGt
  | (14, _, _) => some .opSlt
  | (15, _, _) => some .opSgt
  | (16, _, _) => some .opEq
  | (17, _, _) => some .opIszero
  | (18, _, _) => some .opAnd
  | (19, _, _) => some .opXor
  | (20, _, _) => some .opOr
  | (21, _, _) => some .opNot
  | (22, _, _) => some .opByte
  | (23, _, _) => some .opSha3
  | (24, _, _) => some .opAddress
  | (25, _, _) => some .opBalance
  | (26, _, _) => some .opOrigin
  | (27, _, _) => some .opCaller
  | (28, _, _) => some .opCallValue
  | (29, _, _) => some .opCalldataLoad
  | (30, _, _) => some .opCalldataSize
  | (31, _, _) => some .opCalldataCopy
  | (32, _, _) => some .opCodeSize
  | (33, _, _) => some .opCodeCopy
  | (34, _, _) => some .opExtCodeSize
  | (35, _, _) => some .opExtCodeCopy
  | (36, _, _) => some .opBlockhash
  | (37, _, _) => some .opCoinbase
  | (38, _, _) => some .opTimestamp
  | (39, _, _) => some .opNumber
  | (40, _, _) => some .opDifficulty
  | (41, _, _) => some .opPop
  | (42, _, _) => some .opMload
  | (43, _, _) => some .opMstore
  | (44, _, _) => some .opMstore8
  | (45, _, _) => some .opSload
  | (46, _, _) => some .opSstore
  | (47, _, _) => some .opJump
  | (48, _, _) => some .opJumpi
  | (49, _, _) => some .opPc
  | (50, _, _) => some .opMsize
  | (51, _, _) => some .opJumpdest
  | (100, n, len) => some (.makePush n len)
  | (101, n, _) => some (.makeDup n)
  | (102, n, _) => some (.makeSwap n)
  | (103, n, _) => some (.makeLog n)
  | (104, _, _) => some .opCreate
  | (105, _, _) => some .opCall
  | (106, _, _) => some .opCallCode
  | (107, _, _) => some .opReturn
  | (108, _, _) => some .opSuicide
  | (109, _, _) => some .opDelegateCall
  | _ => none

instance : DecidableEq ExecFn := fun a b =>
  if h : a.toCode = b.toCode then
    isTrue (by
      have h2 := congrArg ExecFn.ofCode h
      have ra : ExecFn.ofCode a.toCode = some a := by cases a <;> rfl
      have rb : ExecFn.ofCode b.toCode = some b := by cases b <;> rfl
      rw [ra, rb] at h2
      exact Option.some.inj h2)
  else isFalse fun he => h (by rw [he])

/-- Symbolic names of the `stackValidationFunc` values installed in the
tables. -/
inductive StackFn where
  | makeStackFunc (pop push : Nat)
  | makeDupStackFunc (n : Nat)
  | makeSwapStackFunc (n : Nat)
deriving DecidableEq, Repr

/-- Symbolic names of the `memorySizeFunc` values installed in the tables. -/
inductive MemFn where
  | memorySha3
  | memoryCalldataCopy
  | memoryCodeCopy
  | memoryExtCodeCopy
  | memoryMLoad
  | memoryMStore
  | memoryMStore8
  | memoryLog
  | memoryCreate
  | memoryCall
  | memoryReturn
  | memoryDelegateCall
deriving DecidableEq, Repr

/-- The `operation` descriptor of `jump_table.go`. Field defaults are the
Go zero values, so `{}` below is the zero descriptor an absent array
entry holds. -/
structure operation where
  execute : Option ExecFn := none
  validateStack : Option StackFn := none
  memorySize : Option MemFn := none
  halts : Bool := false
  jumps : Bool := false
  writes : Bool := false
  valid : Bool := false
  reverts : Bool := false
deriving DecidableEq, Repr

/-- Modelled from the spec: opcode byte constants (`core/vm/opcodes.go` is
not among the sources in view; the spec fixes only that opcodes are single
bytes, the values follow the standard assignment the `vm` package uses). -/
def DELEGATECALL : Nat := 0xf4

/-- Opcode byte `STOP`. -/
def STOP : Nat := 0x00

/-- Opcode byte `ADD`. -/
def ADD : Nat := 0x01

/-- Opcode byte `MUL`. -/
def MUL : Nat := 0x02

/-- Opcode byte `SUB`. -/
def SUB : Nat := 0x03

/-- Opcode byte `DIV`. -/
def DIV : Nat := 0x04

/-- Opcode byte `SDIV`. -/
def SDIV : Nat := 0x05

/-- Opcode byte `MOD`. -/
def MOD : Nat := 0x06

/-- Opcode byte `SMOD`. -/
def SMOD : Nat := 0x07

/-- Opcode byte `ADDMOD`. -/
def ADDMOD : Nat := 0x08

/-- Opcode byte `MULMOD`. -/
def MULMOD : Nat := 0x09

/-- Opcode byte `EXP`. -/
def EXP : Nat := 0x0a

/-- Opcode byte `SIGNEXTEND`. -/
def SIGNEXTEND : Nat := 0x0b

/-- Opcode byte `LT`. -/
def LT : Nat := 0x10

/-- Opcode byte `GT`. -/
def GT : Nat := 0x11

/-- Opcode byte `SLT`. -/
def SLT : Nat := 0x12

/-- Opcode byte `SGT`. -/
def SGT : Nat := 0x13

/-- Opcode byte `EQ`. -/
def EQ : Nat := 0x14

/-- Opcode byte `ISZERO`. -/
def ISZERO : Nat := 0x15

/-- Opcode byte `AND`. -/
def AND : Nat := 0x16

/-- Opcode byte `XOR`. -/
def XOR : Nat := 0x18

/-- Opcode byte `OR`. -/
def OR : Nat := 0x17

/-- Opcode byte `NOT`. -/
def NOT : Nat := 0x19

/-- Opcode byte `BYTE`. -/
def BYTE : Nat := 0x1a

/-- Opcode byte `SHA3`. -/
def SHA3 : Nat := 0x20

/-- Opcode byte `ADDRESS`. -/
def ADDRESS : Nat := 0x30

/-- Opcode byte `BALANCE`. -/
def BALANCE : Nat := 0x31

/-- Opcode byte `ORIGIN`. -/
def ORIGIN : Nat := 0x32

/-- Opcode byte `CALLER`. -/
def CALLER : Nat := 0x33

/-- Opcode byte `CALLVALUE`. -/
def CALLVALUE : Nat := 0x34

/-- Opcode byte `CALLDATALOAD`. -/
def CALLDATALOAD : Nat := 0x35

/-- Opcode byte `CALLDATASIZE`. -/
def CALLDATASIZE : Nat := 0x36

/-- Opcode byte `CALLDATACOPY`. -/
def CALLDATACOPY : Nat := 0x37

/-- Opcode byte `CODESIZE`. -/
def CODESIZE : Nat := 0x38

/-- Opcode byte `CODECOPY`. -/
def CODECOPY : Nat := 0x39

/-- Opcode byte `EXTCODESIZE`. -/
def EXTCODESIZE : Nat := 0x3b

/-- Opcode byte `EXTCODECOPY`. -/
def EXTCODECOPY : Nat := 0x3c

/-- Opcode byte `BLOCKHASH`. -/
def BLOCKHASH : Nat := 0x40

/-- Opcode byte `COINBASE`. -/
def COINBASE : Nat := 0x41

/-- Opcode byte `TIMESTAMP`. -/
def TIMESTAMP : Nat := 0x42

/-- Opcode byte `NUMBER`. -/
def NUMBER : Nat := 0x43

/-- Opcode byte `DIFFICULTY`. -/
def DIFFICULTY : Nat := 0x44

/-- Opcode byte `POP`. -/
def POP : Nat := 0x50

/-- Opcode byte `MLOAD`. -/
def MLOAD : Nat := 0x51

/-- Opcode byte `MSTORE`. -/
def MSTORE : Nat := 0x52

/-- Opcode byte `MSTORE8`. -/
def MSTORE8 : Nat := 0x53

/-- Opcode byte `SLOAD`. -/
def SLOAD : Nat := 0x54

/-- Opcode byte `SSTORE`. -/
def SSTORE : Nat := 0x55

/-- Opcode byte `JUMP`. -/
def JUMP : Nat := 0x56

/-- Opcode byte `JUMPI`. -/
def JUMPI : Nat := 0x57

/-- Opcode byte `PC`. -/
def PC : Nat := 0x58

/-- Opcode byte `MSIZE`. -/
def MSIZE : Nat := 0x59

/-- Opcode byte `JUMPDEST`. -/
def JUMPDEST : Nat := 0x5b

/-- Opcode byte `PUSH1`. -/
def PUSH1 : Nat := 0x60

/-- Opcode byte `PUSH2`. -/
def PUSH2 : Nat := 0x61

/-- Opcode byte `PUSH3`. -/
def PUSH3 : Nat := 0x62

/-- Opcode byte `PUSH4`. -/
def PUSH4 : Nat := 0x63

/-- Opcode byte `PUSH5`. -/
def PUSH5 : Nat := 0x64

/-- Opcode byte `PUSH6`. -/
def PUSH6 : Nat := 0x65

/-- Opcode byte `PUSH7`. -/
def PUSH7 : Nat := 0x66

/-- Opcode byte `PUSH8`. -/
def PUSH8 : Nat := 0x67

/-- Opcode byte `PUSH9`. -/
def PUSH9 : Nat := 0x68

/-- Opcode byte `PUSH10`. -/
def PUSH10 : Nat := 0x69

/-- Opcode byte `PUSH11`. -/
def PUSH11 : Nat := 0x6a

/-- Opcode byte `PUSH12`. -/
def PUSH12 : Nat := 0x6b

/-- Opcode byte `PUSH13`. -/
def PUSH13 : Nat := 0x6c

/-- Opcode byte `PUSH14`. -/
def PUSH14 : Nat := 0x6d

/-- Opcode byte `PUSH15`. -/
def PUSH15 : Nat := 0x6e

/-- Opcode byte `PUSH16`. -/
def PUSH16 : Nat := 0x6f

/-- Opcode byte `PUSH17`. -/
def PUSH17 : Nat := 0x70

/-- Opcode byte `PUSH18`. -/
def PUSH18 : Nat := 0x71

/-- Opcode byte `PUSH19`. -/
def PUSH19 : Nat := 0x72

/-- Opcode byte `PUSH20`. -/
def PUSH20 : Nat := 0x73

/-- Opcode byte `PUSH21`. -/
def PUSH21 : Nat := 0x74

/-- Opcode byte `PUSH22`. -/
def PUSH22 : Nat := 0x75

/-- Opcode byte `PUSH23`. -/
def PUSH23 : Nat := 0x76

/-- Opcode byte `PUSH24`. -/
def PUSH24 : Nat := 0x77

/-- Opcode byte `PUSH25`. -/
def PUSH25 : Nat := 0x78

/-- Opcode byte `PUSH26`. -/
def PUSH26 : Nat := 0x79

/-- Opcode byte `PUSH27`. -/
def PUSH27 : Nat := 0x7a

/-- Opcode byte `PUSH28`. -/
def PUSH28 : Nat := 0x7b

/-- Opcode byte `PUSH29`. -/
def PUSH29 : Nat := 0x7c

/-- Opcode byte `PUSH30`. -/
def PUSH30 : Nat := 0x7d

/-- Opcode byte `PUSH31`. -/
def PUSH31 : Nat := 0x7e

/-- Opcode byte `PUSH32`. -/
def PUSH32 : Nat := 0x7f

/-- Opcode byte `DUP1`. -/
def DUP1 : Nat := 0x80

/-- Opcode byte `DUP2`. -/
def DUP2 : Nat := 0x81

/-- Opcode byte `DUP3`. -/
def DUP3 : Nat := 0x82

/-- Opcode byte `DUP4`. -/
def DUP4 : Nat := 0x83

/-- Opcode byte `DUP5`. -/
def DUP5 : Nat := 0x84

/-- Opcode byte `DUP6`. -/
def DUP6 : Nat := 0x85

/-- Opcode byte `DUP7`. -/
def DUP7 : Nat := 0x86

/-- Opcode byte `DUP8`. -/
def DUP8 : Nat := 0x87

/-- Opcode byte `DUP9`. -/
def DUP9 : Nat := 0x88

/-- Opcode byte `DUP10`. -/
def DUP10 : Nat := 0x89

/-- Opcode byte `DUP11`. -/
def DUP11 : Nat := 0x8a

/-- Opcode byte `DUP12`. -/
def DUP12 : Nat := 0x8b

/-- Opcode byte `DUP13`. -/
def DUP13 : Nat := 0x8c

/-- Opcode byte `DUP14`. -/
def DUP14 : Nat := 0x8d

/-- Opcode byte `DUP15`. -/
def DUP15 : Nat := 0x8e

/-- Opcode byte `DUP16`. -/
def DUP16 : Nat := 0x8f

/-- Opcode byte `SWAP1`. -/
def SWAP1 : Nat := 0x90

/-- Opcode byte `SWAP2`. -/
def SWAP2 : Nat := 0x91

/-- Opcode byte `SWAP3`. -/
def SWAP3 : Nat := 0x92

/-- Opcode byte `SWAP4`. -/
def SWAP4 : Nat := 0x93

/-- Opcode byte `SWAP5`. -/
def SWAP5 : Nat := 0x94

/-- Opcode byte `SWAP6`. -/
def SWAP6 : Nat := 0x95

/-- Opcode byte `SWAP7`. -/
def SWAP7 : Nat := 0x96

/-- Opcode byte `SWAP8`. -/
def SWAP8 : Nat := 0x97

/-- Opcode byte `SWAP9`. -/
def SWAP9 : Nat := 0x98

/-- Opcode byte `SWAP10`. -/
def SWAP10 : Nat := 0x99

/-- Opcode byte `SWAP11`. -/
def SWAP11 : Nat := 0x9a

/-- Opcode byte `SWAP12`. -/
def SWAP12 : Nat := 0x9b

/-- Opcode byte `SWAP13`. -/
def SWAP13 : Nat := 0x9c

/-- Opcode byte `SWAP14`. -/
def SWAP14 : Nat := 0x9d

/-- Opcode byte `SWAP15`. -/
def SWAP15 : Nat := 0x9e

/-- Opcode byte `SWAP16`. -/
def SWAP16 : Nat := 0x9f

/-- Opcode byte `LOG0`. -/
def LOG0 : Nat := 0xa0

/-- Opcode byte `LOG1`. -/
def LOG1 : Nat := 0xa1

/-- Opcode byte `LOG2`. -/
def LOG2 : Nat := 0xa2

/-- Opcode byte `LOG3`. -/
def LOG3 : Nat := 0xa3

/-- Opcode byte `LOG4`. -/
def LOG4 : Nat := 0xa4

/-- Opcode byte `CREATE`. -/
def CREATE : Nat := 0xf0

/-- Opcode byte `CALL`. -/
def CALL : Nat := 0xf1

/-- Opcode byte `CALLCODE`. -/
def CALLCODE : Nat := 0xf2

/-- Opcode byte `RETURN`. -/
def RETURN : Nat := 0xf3

/-- Opcode byte `SELFDESTRUCT`. -/
def SELFDESTRUCT : Nat := 0xff

/-- `NewFrontierInstructionSet`: the frontier instruction table, as the
Go 256-entry array literal keyed by opcode byte; every byte not listed holds
the zero descriptor. -/
def NewFrontierInstructionSet : Nat → operation := fun b =>
  if b = STOP then
    { execute := some .opStop, validateStack := some (.makeStackFunc 0 0), halts := true, valid := true }
  else if b = ADD then
    { execute := some .opAdd, validateStack := some (.makeStackFunc 2 1), valid := true }
  else if b = MUL then
    { execute := some .opMul, validateStack := some (.makeStackFunc 2 1), valid := true }
  else if b = SUB then
    { execute := some .opSub, validateStack := some (.makeStackFunc 2 1), valid := true }
  else if b = DIV then
    { execute := some .opDiv, validateStack := some (.makeStackFunc 2 1), valid := true }
  else if b = SDIV then
    { execute := some .opSdiv, validateStack := some (.makeStackFunc 2 1), valid := true }
  else if b = MOD then
    { execute := some .opMod, validateStack := some (.makeStackFunc 2 1), valid := true }
  else if b = SMOD then
    { execute := some .opSmod, validateStack := some (.makeStackFunc 2 1), valid := true }
  else if b = ADDMOD then
    { execute := some .opAddmod, validateStack := some (.makeStackFunc 3 1), valid := true }
  else if b = MULMOD then
    { execute := some .opMulmod, validateStack := some (.makeStackFunc 3 1), valid := true }
  else if b = EXP then
    { execute := some .opExp, validateStack := some (.makeStackFunc 2 1), valid := true }
  else if b = SIGNEXTEND then
    { execute := some .opSignExtend, validateStack := some (.makeStackFunc 2 1), valid := true }
  else if b = LT then
    { execute := some .opLt, validateStack := some (.makeStackFunc 2 1), valid := true }
  else if b = GT then
    { execute := some .opGt, validateStack := some (.makeStackFunc 2 1), valid := true }
  else if b = SLT then
    { execute := some .opSlt, validateStack := some (.makeStackFunc 2 1), valid := true }
  else if b = SGT then
    { execute := some .opSgt, validateStack := some (.makeStackFunc 2 1), valid := true }
  else if b = EQ then
    { execute := some .opEq, validateStack := some (.makeStackFunc 2 1), valid := true }
  else if b = ISZERO then
    { execute := some .opIszero, validateStack := some (.makeStackFunc 1 1), valid := true }
  else if b = AND then
    { execute := some .opAnd, validateStack := some (.makeStackFunc 2 1), valid := true }
  else if b = XOR then
    { execute := some .opXor, validateStack := some (.makeStackFunc 2 1), valid := true }
  else if b = OR then
    { execute := some .opOr, validateStack := some (.makeStackFunc 2 1), valid := true }
  else if b = NOT then
    { execute := some .opNot, validateStack := some (.makeStackFunc 1 1), valid := true }
  else if b = BYTE then
    { execute := some .opByte, validateStack := some (.makeStackFunc 2 1), valid := true }
  else if b = SHA3 then
    { execute := some .opSha3, validateStack := some (.makeStackFunc 2 1), memorySize := some .memorySha3, valid := true }
  else if b = ADDRESS then
    { execute := some .opAddress, validateStack := some (.makeStackFunc 0 1), valid := true }
  else if b = BALANCE then
    { execute := some .opBalance, validateStack := some (.makeStackFunc 1 1), valid := true }
  else if b = ORIGIN then
    { execute := some .opOrigin, validateStack := some (.makeStackFunc 0 1), valid := true }
  else if b = CALLER then
    { execute := some .opCaller, validateStack := some (.makeStackFunc 0 1), valid := true }
  else if b = CALLVALUE then
    { execute := some .opCallValue, validateStack := some (.makeStackFunc 0 1), valid := true }
  else if b = CALLDATALOAD then
    { execute := some .opCalldataLoad, validateStack := some (.makeStackFunc 1 1), valid := true }
  else if b = CALLDATASIZE then
    { execute := some .opCalldataSize, validateStack := some (.makeStackFunc 0 1), valid := true }
  else if b = CALLDATACOPY then
    { execute := some .opCalldataCopy, validateStack := some (.makeStackFunc 3 0), memorySize := some .memoryCalldataCopy, valid := true }
  else if b = CODESIZE then
    { execute := some .opCodeSize, validateStack := some (.makeStackFunc 0 1), valid := true }
  else if b = CODECOPY then
    { execute := some .opCodeCopy, validateStack := some (.makeStackFunc 3 0), memorySize := some .memoryCodeCopy, valid := true }
  else if b = EXTCODESIZE then
    { execute := some .opExtCodeSize, validateStack := some (.makeStackFunc 1 1), valid := true }
  else if b = EXTCODECOPY then
    { execute := some .opExtCodeCopy, validateStack := some (.makeStackFunc 4 0), memorySize := some .memoryExtCodeCopy, valid := true }
  else if b = BLOCKHASH then
    { execute := some .opBlockhash, validateStack := some (.makeStackFunc 1 1), valid := true }
  else if b = COINBASE then
    { execute := some .opCoinbase, validateStack := some (.makeStackFunc 0 1), valid := true }
  else if b = TIMESTAMP then
    { execute := some .opTimestamp, validateStack := some (.makeStackFunc 0 1), valid := true }
  else if b = NUMBER then
    { execute := some .opNumber, validateStack := some (.makeStackFunc 0 1), valid := true }
  else if b = DIFFICULTY then
    { execute := some .opDifficulty, validateStack := some (.makeStackFunc 0 1), valid := true }
  else if b = POP then
    { execute := some .opPop, validateStack := some (.makeStackFunc 1 0), valid := true }
  else if b = MLOAD then
    { execute := some .opMload, validateStack := some (.makeStackFunc 1 1), memorySize := some .memoryMLoad, valid := true }
  else if b = MSTORE then
    { execute := some .opMstore, validateStack := some (.makeStackFunc 2 0), memorySize := some .memoryMStore, valid := true }
  else if b = MSTORE8 then
    { execute := some .opMstore8, validateStack := some (.makeStackFunc 2 0), memorySize := some .memoryMStore8, valid := true }
  else if b = SLOAD then
    { execute := some .opSload, validateStack := some (.makeStackFunc 1 1), valid := true }
  else if b = SSTORE then
    { execute := some .opSstore, validateStack := some (.makeStackFunc 2 0), writes := true, valid := true }
  else if b = JUMP then
    { execute := some .opJump, validateStack := some (.makeStackFunc 1 0), jumps := true, valid := true }
  else if b = JUMPI then
    { execute := some .opJumpi, validateStack := some (.makeStackFunc 2 0), jumps := true, valid := true }
  else if b = PC then
    { execute := some .opPc, validateStack := some (.makeStackFunc 0 1), valid := true }
  else if b = MSIZE then
    { execute := some .opMsize, validateStack := some (.makeStackFunc 0 1), valid := true }
  else if b = JUMPDEST then
    { execute := some .opJumpdest, validateStack := some (.makeStackFunc 0 0), valid := true }
  else if b = PUSH1 then
    { execute := some (.makePush 1 1), validateStack := some (.makeStackFunc 0 1), valid := true }
  else if b = PUSH2 then
    { execute := some (.makePush 2 2), validateStack := some (.makeStackFunc 0 1), valid := true }
  else if b = PUSH3 then
    { execute := some (.makePush 3 3), validateStack := some (.makeStackFunc 0 1), valid := true }
  else if b = PUSH4 then
    { execute := some (.makePush 4 4), validateStack := some (.makeStackFunc 0 1), valid := true }
  else if b = PUSH5 then
    { execute := some (.makePush 5 5), validateStack := some (.makeStackFunc 0 1), valid := true }
  else if b = PUSH6 then
    { execute := some (.makePush 6 6), validateStack := some (.makeStackFunc 0 1), valid := true }
  else if b = PUSH7 then
    { execute := some (.makePush 7 7), validateStack := some (.makeStackFunc 0 1), valid := true }
  else if b = PUSH8 then
    { execute := some (.makePush 8 8), validateStack := some (.makeStackFunc 0 1), valid := true }
  else if b = PUSH9 then
    { execute := some (.makePush 9 9), validateStack := some (.makeStackFunc 0 1), valid := true }
  else if b = PUSH10 then
    { execute := some (.makePush 10 10), validateStack := some (.makeStackFunc 0 1), valid := true }
  else if b = PUSH11 then
    { execute := some (.makePush 11 11), validateStack := some (.makeStackFunc 0 1), valid := true }
  else if b = PUSH12 then
    { execute := some (.makePush 12 12), validateStack := some (.makeStackFunc 0 1), valid := true }
  else if b = PUSH13 then
    { execute := some (.makePush 13 13), validateStack := some (.makeStackFunc 0 1), valid := true }
  else if b = PUSH14 then
    { execute := some (.makePush 14 14), validateStack := some (.makeStackFunc 0 1), valid := true }
  else if b = PUSH15 then
    { execute := some (.makePush 15 15), validateStack := some (.makeStackFunc 0 1), valid := true }
  else if b = PUSH16 then
    { execute := some (.makePush 16 16), validateStack := some (.makeStackFunc 0 1), valid := true }
  else if b = PUSH17 then
    { execute := some (.makePush 17 17), validateStack := some (.makeStackFunc 0 1), valid := true }
  else if b = PUSH18 then
    { execute := some (.makePush 18 18), validateStack := some (.makeStackFunc 0 1), valid := true }
  else if b = PUSH19 then
    { execute := some (.makePush 19 19), validateStack := some (.makeStackFunc 0 1), valid := true }
  else if b = PUSH20 then
    { execute := some (.makePush 20 20), validateStack := some (.makeStackFunc 0 1), valid := true }
  else if b = PUSH21 then
    { execute := some (.makePush 21 21), validateStack := some (.makeStackFunc 0 1), valid := true }
  else if b = PUSH22 then
    { execute := some (.makePush 22 22), validateStack := some (.makeStackFunc 0 1), valid := true }
  else if b = PUSH23 then
    { execute := some (.makePush 23 23), validateStack := some (.makeStackFunc 0 1), valid := true }
  else if b = PUSH24 then
    { execute := some (.makePush 24 24), validateStack := some (.makeStackFunc 0 1), valid := true }
  else if b = PUSH25 then
    { execute := some (.makePush 25 25), validateStack := some (.makeStackFunc 0 1), valid := true }
  else if b = PUSH26 then
    { execute := some (.makePush 26 26), validateStack := some (.makeStackFunc 0 1), valid := true }
  else if b = PUSH27 then
    { execute := some (.makePush 27 27), validateStack := some (.makeStackFunc 0 1), valid := true }
  else if b = PUSH28 then
    { execute := some (.makePush 28 28), validateStack := some (.makeStackFunc 0 1), valid := true }
  else if b = PUSH29 then
    { execute := some (.makePush 29 29), validateStack := some (.makeStackFunc 0 1), valid := true }
  else if b = PUSH30 then
    { execute := some (.makePush 30 30), validateStack := some (.makeStackFunc 0 1), valid := true }
  else if b = PUSH31 then
    { execute := some (.makePush 31 31), validateStack := some (.makeStackFunc 0 1), valid := true }
  else if b = PUSH32 then
    { execute := some (.makePush 32 32), validateStack := some (.makeStackFunc 0 1), valid := true }
  else if b = DUP1 then
    { execute := some (.makeDup 1), validateStack := some (.makeDupStackFunc 1), valid := true }
  else if b = DUP2 then
    { execute := some (.makeDup 2), validateStack := some (.makeDupStackFunc 2), valid := true }
  else if b = DUP3 then
    { execute := some (.makeDup 3), validateStack := some (.makeDupStackFunc 3), valid := true }
  else if b = DUP4 then
    { execute := some (.makeDup 4), validateStack := some (.makeDupStackFunc 4), valid := true }
  else if b = DUP5 then
    { execute := some (.makeDup 5), validateStack := some (.makeDupStackFunc 5), valid := true }
  else if b = DUP6 then
    { execute := some (.makeDup 6), validateStack := some (.makeDupStackFunc 6), valid := true }
  else if b = DUP7 then
    { execute := some (.makeDup 7), validateStack := some (.makeDupStackFunc 7), valid := true }
  else if b = DUP8 then
    { execute := some (.makeDup 8), validateStack := some (.makeDupStackFunc 8), valid := true }
  else if b = DUP9 then
    { execute := some (.makeDup 9), validateStack := some (.makeDupStackFunc 9), valid := true }
  else if b = DUP10 then
    { execute := some (.makeDup 10), validateStack := some (.makeDupStackFunc 10), valid := true }
  else if b = DUP11 then
    { execute := some (.makeDup 11), validateStack := some (.makeDupStackFunc 11), valid := true }
  else if b = DUP12 then
    { execute := some (.makeDup 12), validateStack := some (.makeDupStackFunc 12), valid := true }
  else if b = DUP13 then
    { execute := some (.makeDup 13), validateStack := some (.makeDupStackFunc 13), valid := true }
  else if b = DUP14 then
    { execute := some (.makeDup 14), validateStack := some (.makeDupStackFunc 14), valid := true }
  else if b = DUP15 then
    { execute := some (.makeDup 15), validateStack := some (.makeDupStackFunc 15), valid := true }
  else if b = DUP16 then
    { execute := some (.makeDup 16), validateStack := some (.makeDupStackFunc 16), valid := true }
  else if b = SWAP1 then
    { execute := some (.makeSwap 1), validateStack := some (.makeSwapStackFunc 2), valid := true }
  else if b = SWAP2 then
    { execute := some (.makeSwap 2), validateStack := some (.makeSwapStackFunc 3), valid := true }
  else if b = SWAP3 then
    { execute := some (.makeSwap 3), validateStack := some (.makeSwapStackFunc 4), valid := true }
  else if b = SWAP4 then
    { execute := some (.makeSwap 4), validateStack := some (.makeSwapStackFunc 5), valid := true }
  else if b = SWAP5 then
    { execute := some (.makeSwap 5), validateStack := some (.makeSwapStackFunc 6), valid := true }
  else if b = SWAP6 then
    { execute := some (.makeSwap 6), validateStack := some (.makeSwapStackFunc 7), valid := true }
  else if b = SWAP7 then
    { execute := some (.makeSwap 7), validateStack := some (.makeSwapStackFunc 8), valid := true }
  else if b = SWAP8 then
    { execute := some (.makeSwap 8), validateStack := some (.makeSwapStackFunc 9), valid := true }
  else if b = SWAP9 then
    { execute := some (.makeSwap 9), validateStack := some (.makeSwapStackFunc 10), valid := true }
  else if b = SWAP10 then
    { execute := some (.makeSwap 10), validateStack := some (.makeSwapStackFunc 11), valid := true }
  else if b = SWAP11 then
    { execute := some (.makeSwap 11), validateStack := some (.makeSwapStackFunc 12), valid := true }
  else if b = SWAP12 then
    { execute := some (.makeSwap 12), validateStack := some (.makeSwapStackFunc 13), valid := true }
  else if b = SWAP13 then
    { execute := some (.makeSwap 13), validateStack := some (.makeSwapStackFunc 14), valid := true }
  else if b = SWAP14 then
    { execute := some (.makeSwap 14), validateStack := some (.makeSwapStackFunc 15), valid := true }
  else if b = SWAP15 then
    { execute := some (.makeSwap 15), validateStack := some (.makeSwapStackFunc 16), valid := true }
  else if b = SWAP16 then
    { execute := some (.makeSwap 16), validateStack := some (.makeSwapStackFunc 17), valid := true }
  else if b = LOG0 then
    { execute := some (.makeLog 0), validateStack := some (.makeStackFunc 2 0), memorySize := some .memoryLog, valid := true }
  else if b = LOG1 then
    { execute := some (.makeLog 1), validateStack := some (.makeStackFunc 3 0), memorySize := some .memoryLog, valid := true }
  else if b = LOG2 then
    { execute := some (.makeLog 2), validateStack := some (.makeStackFunc 4 0), memorySize := some .memoryLog, valid := true }
  else if b = LOG3 then
    { execute := some (.makeLog 3), validateStack := some (.makeStackFunc 5 0), memorySize := some .memoryLog, valid := true }
  else if b = LOG4 then
    { execute := some (.makeLog 4), validateStack := some (.makeStackFunc 6 0), memorySize := some .memoryLog, valid := true }
  else if b = CREATE then
    { execute := some .opCreate, validateStack := some (.makeStackFunc 3 1), memorySize := some .memoryCreate, writes := true, valid := true }
  else if b = CALL then
    { execute := some .opCall, validateStack := some (.makeStackFunc 7 1), memorySize := some .memoryCall, valid := true }
  else if b = CALLCODE then
    { execute := some .opCallCode, validateStack := some (.makeStackFunc 7 1), memorySize := some .memoryCall, valid := true }
  else if b = RETURN then
    { execute := some .opReturn, validateStack := some (.makeStackFunc 2 0), memorySize := some .memoryReturn, halts := true, valid := true }
  else if b = SELFDESTRUCT then
    { execute := some .opSuicide, validateStack := some (.makeStackFunc 1 0), halts := true, writes := true, valid := true }
  else {}

/-- `NewHomesteadInstructionSet`: start from a copy of the frontier table
(Go `[256]operation` is an array value, so the local starts as a copy of a
fresh `NewFrontierInstructionSet()` result) and overlay the single
`DELEGATECALL` entry. -/
def NewHomesteadInstructionSet : Nat → operation := fun b =>
  if b = DELEGATECALL then
    { execute := some .opDelegateCall, validateStack := some (.makeStackFunc 6 1), memorySize := some .memoryDelegateCall, valid := true }
  else NewFrontierInstructionSet b

/-- The package-level `frontierInstructionSet` variable. -/
def frontierInstructionSet : Nat → operation := NewFrontierInstructionSet

/-- The package-level `homesteadInstructionSet` variable. -/
def homesteadInstructionSet : Nat → operation := NewHomesteadInstructionSet

/-- A message with a mismatched declared nonce (declared 5, account nonce 0). -/
def msgNonceMismatch : Message := ⟨1, some 2, 0, 5, true, []⟩

/-- A nonce-checked call message sending value 50 from address 1 to address 2. -/
def msgCall50 : Message := ⟨1, some 2, 50, 0, true, []⟩

/-- A nonce-checked contract-creation message from address 1. -/
def msgCreate : Message := ⟨1, none, 0, 0, true, []⟩

/-- Sender account 1 with nonce 0 and balance 100. -/
def stateRich : StateDB := singleState 1 ⟨0, 100⟩

/-- Sender account 1 with nonce 0 and balance 10. -/
def statePoor : StateDB := singleState 1 ⟨0, 10⟩

/-- Sender account 1 with the maximal `uint64` nonce and balance 100. -/
def stateMaxNonce : StateDB := singleState 1 ⟨2 ^ 64 - 1, 100⟩

/-- A nonce-checked call message from address 1 whose declared nonce is the
maximal `uint64` value. -/
def msgMaxNonce : Message := ⟨1, some 2, 0, 2 ^ 64 - 1, true, []⟩

/-! ## View lemmas for the world-state capability -/

theorem getNonce_createAccount (s : StateDB) (a x : Address) :
    getNonce (createAccount s a) x = getNonce s x := by
  unfold getNonce createAccount
  by_cases h : x = a
  · subst h
    cases hs : s x <;> simp [hs]
  · simp [h]

theorem getBalance_createAccount (s : StateDB) (a x : Address) :
    getBalance (createAccount s a) x = getBalance s x := by
  unfold getBalance createAccount
  by_cases h : x = a
  · subst h
    cases hs : s x <;> simp [hs]
  · simp [h]

theorem exist_createAccount_self (s : StateDB) (a : Address) :
    exist (createAccount s a) a = true := by
  unfold exist createAccount
  cases hs : s a <;> simp [hs]

theorem getNonce_setNonce_self (s : StateDB) (a : Address) (n : Nat) :
    getNonce (setNonce s a n) a = n := by
  unfold getNonce setNonce
  cases hs : s a <;> simp [hs]

theorem getNonce_setNonce_ne (s : StateDB) (a : Address) (n : Nat) (x : Address)
    (h : x ≠ a) : getNonce (setNonce s a n) x = getNonce s x := by
  unfold getNonce setNonce
  simp [h]

theorem getBalance_setNonce (s : StateDB) (a : Address) (n : Nat) (x : Address) :
    getBalance (setNonce s a n) x = getBalance s x := by
  unfold getBalance setNonce
  by_cases h : x = a
  · subst h
    cases hs : s x <;> simp [hs]
  · simp [h]

/-! ## Lemmas about the orchestrator's materialization helpers -/

theorem stFrom_snd (s : StateDB) (msg : Message) : (stFrom s msg).2 = msg.From := by
  unfold stFrom
  dsimp only
  split <;> rfl

theorem getNonce_stFrom (s : StateDB) (msg : Message) (x : Address) :
    getNonce ((stFrom s msg).1) x = getNonce s x := by
  unfold stFrom
  dsimp only
  split
  · rfl
  · exact getNonce_createAccount s msg.From x

theorem getBalance_stFrom (s : StateDB) (msg : Message) (x : Address) :
    getBalance ((stFrom s msg).1) x = getBalance s x := by
  unfold stFrom
  dsimp only
  split
  · rfl
  · exact getBalance_createAccount s msg.From x

theorem exist_stFrom_self (s : StateDB) (msg : Message) :
    exist ((stFrom s msg).1) msg.From = true := by
  unfold stFrom
  dsimp only
  split
  · next h => exact h
  · exact exist_createAccount_self s msg.From

theorem stFrom_of_exist (s : StateDB) (msg : Message)
    (h : exist s msg.From = true) : stFrom s msg = (s, msg.From) := by
  unfold stFrom
  dsimp only
  rw [if_pos h]

theorem stFrom_stFrom (s : StateDB) (msg : Message) :
    stFrom ((stFrom s msg).1) msg = ((stFrom s msg).1, msg.From) :=
  stFrom_of_exist _ _ (exist_stFrom_self s msg)

theorem getNonce_stTo (s : StateDB) (msg : Message) (x : Address) :
    getNonce ((stTo s msg).1) x = getNonce s x := by
  unfold stTo
  cases h : msg.To with
  | none => rfl
  | some t =>
    dsimp only
    split
    · rfl
    · exact getNonce_createAccount s t x

theorem getBalance_stTo (s : StateDB) (msg : Message) (x : Address) :
    getBalance ((stTo s msg).1) x = getBalance s x := by
  unfold stTo
  cases h : msg.To with
  | none => rfl
  | some t =>
    dsimp only
    split
    · rfl
    · exact getBalance_createAccount s t x

/-! ## Lemmas about `preCheck` and the dispatch pipeline -/

theorem preCheck_fst (s : StateDB) (msg : Message) :
    (preCheck s msg).1 = (stFrom s msg).1 := by
  unfold preCheck
  dsimp only
  split_ifs <;> rfl

theorem preCheck_mismatch (s : StateDB) (msg : Message)
    (hc : msg.CheckNonce = true) (hn : getNonce s msg.From ≠ msg.Nonce) :
    preCheck s msg =
      ((stFrom s msg).1, some (.invalidNonce msg.Nonce (getNonce s msg.From))) := by
  unfold preCheck
  dsimp only
  rw [stFrom_snd, getNonce_stFrom, hc]
  simp only [if_true]
  rw [if_pos hn]

theorem preCheck_err_shape (s : StateDB) (msg : Message) (e : Err)
    (h : (preCheck s msg).2 = some e) : ∃ d x, e = .invalidNonce d x := by
  unfold preCheck at h
  dsimp only at h
  split_ifs at h with h1 h2
  simp only [Option.some.injEq] at h
  exact ⟨msg.Nonce, getNonce ((stFrom s msg).1) ((stFrom s msg).2), h.symm⟩

theorem getNonce_callDispatch_self (s : StateDB) (msg : Message) :
    getNonce ((callDispatch s msg).1) msg.From =
      (getNonce s msg.From + 1) % 2 ^ 64 := by
  unfold callDispatch
  dsimp only
  rw [getNonce_stTo, stFrom_snd, getNonce_setNonce_self, getNonce_stFrom,
    getNonce_stFrom]

theorem getNonce_callDispatch_ne (s : StateDB) (msg : Message) (a : Address)
    (h : a ≠ msg.From) : getNonce ((callDispatch s msg).1) a = getNonce s a := by
  unfold callDispatch
  dsimp only
  rw [getNonce_stTo, stFrom_snd, getNonce_setNonce_ne _ _ _ _ h, getNonce_stFrom,
    getNonce_stFrom]

theorem getBalance_callDispatch (s : StateDB) (msg : Message) (a : Address) :
    getBalance ((callDispatch s msg).1) a = getBalance s a := by
  unfold callDispatch
  dsimp only
  rw [getBalance_stTo, stFrom_snd, getBalance_setNonce, getBalance_stFrom,
    getBalance_stFrom]

theorem callDispatch_sender (s : StateDB) (msg : Message) :
    (callDispatch s msg).2.1 = msg.From := by
  unfold callDispatch
  dsimp only
  rw [stFrom_snd]

theorem getNonce_createDispatch (s : StateDB) (msg : Message) (a : Address) :
    getNonce ((createDispatch s msg).1) a = getNonce s a := by
  unfold createDispatch
  rw [getNonce_stFrom, getNonce_stFrom]

theorem classify_state (s : StateDB) (ret : List Nat) (vmerr : Option VMErr) :
    (classify s ret vmerr).state = s := by
  unfold classify
  split <;> rfl

theorem TransitionDb_pass (evm : EVM) (msg : Message) (s : StateDB)
    (hpass : (preCheck s msg).2 = none) :
    TransitionDb evm msg s =
      classify (dispatchResult evm msg s).1 (dispatchResult evm msg s).2.1
        (dispatchResult evm msg s).2.2 := by
  unfold TransitionDb
  rw [hpass]

theorem TransitionDb_fail (evm : EVM) (msg : Message) (s : StateDB) (e : Err)
    (hfail : (preCheck s msg).2 = some e) :
    TransitionDb evm msg s = ⟨(preCheck s msg).1, [], false, some e⟩ := by
  unfold TransitionDb
  rw [hfail]

theorem dispatchResult_call (evm : EVM) (msg : Message) (s : StateDB) (t : Address)
    (hTo : msg.To = some t) :
    dispatchResult evm msg s =
      ((evm.call (callDispatch s msg).1 (callDispatch s msg).2.1
          (callDispatch s msg).2.2 msg.Data msg.Value).1,
        (evm.call (callDispatch s msg).1 (callDispatch s msg).2.1
          (callDispatch s msg).2.2 msg.Data msg.Value).2.1,
        (evm.call (callDispatch s msg).1 (callDispatch s msg).2.1
          (callDispatch s msg).2.2 msg.Data msg.Value).2.2) := by
  unfold dispatchResult
  dsimp only
  rw [hTo]
  rfl

theorem dispatchResult_create (evm : EVM) (msg : Message) (s : StateDB)
    (hTo : msg.To = none) :
    dispatchResult evm msg s =
      ((evm.create (createDispatch s msg).1 (createDispatch s msg).2
          msg.Data msg.Value).1,
        (evm.create (createDispatch s msg).1 (createDispatch s msg).2
          msg.Data msg.Value).2.1,
        (evm.create (createDispatch s msg).1 (createDispatch s msg).2
          msg.Data msg.Value).2.2.2) := by
  unfold dispatchResult
  dsimp only
  rw [hTo]
  rfl

/-! ## Claim theorems -/

/-- C1 (amended): with nonce checking demanded and a declared nonce differing
from the sender account's current nonce, `ApplyMessage` returns the
invalid-nonce error with no return data, no execution-failed flag and the gas
pool untouched, and every account's nonce and balance are unchanged; the final
state is exactly the one `preCheck`'s sender materialization leaves behind, so
whenever the sender account already exists the world state is byte-for-byte
unchanged (when it does not, the sender is materialized with zero nonce and
zero balance). -/
theorem ApplyMessage_nonce_mismatch (evm : EVM) (msg : Message) (gp : Nat)
    (s : StateDB) (hc : msg.CheckNonce = true)
    (hn : msg.Nonce ≠ getNonce s msg.From) :
    (ApplyMessage evm msg gp s).err =
      some (.invalidNonce msg.Nonce (getNonce s msg.From)) ∧
    (ApplyMessage evm msg gp s).ret = [] ∧
    (ApplyMessage evm msg gp s).failed = false ∧
    (ApplyMessage evm msg gp s).gp = gp ∧
    (∀ a, getNonce (ApplyMessage evm msg gp s).state a = getNonce s a) ∧
    (∀ a, getBalance (ApplyMessage evm msg gp s).state a = getBalance s a) ∧
    (ApplyMessage evm msg gp s).state = (stFrom s msg).1 ∧
    (exist s msg.From = true → (ApplyMessage evm msg gp s).state = s) := by
  have hm : (preCheck s msg).2 =
      some (.invalidNonce msg.Nonce (getNonce s msg.From)) := by
    rw [preCheck_mismatch s msg hc (fun h => hn h.symm)]
  have ht := TransitionDb_fail evm msg s _ hm
  have hstate : (ApplyMessage evm msg gp s).state = (stFrom s msg).1 := by
    simp only [ApplyMessage, ht, preCheck_fst]
  refine ⟨?_, ?_, ?_, rfl, ?_, ?_, hstate, ?_⟩
  · simp only [ApplyMessage, ht]
  · simp only [ApplyMessage, ht]
  · simp only [ApplyMessage, ht]
  · intro a
    rw [hstate, getNonce_stFrom]
  · intro a
    rw [hstate, getBalance_stFrom]
  · intro hex
    rw [hstate, stFrom_of_exist s msg hex]

/-- C1 witness: the amended theorem applied to an existing sender (account 1,
nonce 0) and declared nonce 5: the error is returned and the state is exactly
the prior one. -/
theorem ApplyMessage_nonce_mismatch_witness :
    msgNonceMismatch.CheckNonce = true ∧
    msgNonceMismatch.Nonce ≠ getNonce stateRich msgNonceMismatch.From ∧
    (ApplyMessage evmSpec msgNonceMismatch 100 stateRich).err =
      some (.invalidNonce 5 0) ∧
    (ApplyMessage evmSpec msgNonceMismatch 100 stateRich).state = stateRich := by
  have h := ApplyMessage_nonce_mismatch evmSpec msgNonceMismatch 100 stateRich
    rfl (by decide)
  exact ⟨rfl, by decide, h.1, h.2.2.2.2.2.2.2 (by decide)⟩

/-- C1 counterexample: on the empty world state, a nonce-checked message with
declared nonce 5 from the non-existent sender address 1 makes `ApplyMessage`
return the invalid-nonce error, yet the world state is not byte-for-byte
unchanged: the sender account has been created. -/
theorem ApplyMessage_nonce_mismatch_creates_account :
    (ApplyMessage evmSpec msgNonceMismatch 100 emptyState).err =
      some (.invalidNonce 5 0) ∧
    emptyState 1 = none ∧
    (ApplyMessage evmSpec msgNonceMismatch 100 emptyState).state 1 =
      some ⟨0, 0⟩ := by
  refine ⟨by decide, rfl, by decide⟩

/-- C4 (amended): the orchestrator stores the gas pool in the state transition
but never debits it — after `ApplyMessage` the pool's capacity is exactly what
it was before — while the `SubGas` capability itself (modelled from the spec)
rejects a request exceeding the remaining pool and otherwise subtracts the
full amount, never leaving a negative remainder. -/
theorem gasPool_never_debited_subGas_total :
    (∀ evm msg gp s, (ApplyMessage evm msg gp s).gp = gp) ∧
    (∀ pool amount r, subGas pool amount = some r →
      amount ≤ pool ∧ r = pool - amount) ∧
    (∀ pool amount, subGas pool amount = none ↔ pool < amount) := by
  refine ⟨fun evm msg gp s => rfl, ?_, ?_⟩
  · intro pool amount r h
    by_cases h1 : pool < amount
    · simp [subGas, h1] at h
    · simp [subGas, h1] at h
      exact ⟨Nat.le_of_not_lt h1, h.symm⟩
  · intro pool amount
    by_cases h1 : pool < amount <;> simp [subGas, h1]

/-- C4 witness: concrete instances of all three parts of the amended claim. -/
theorem gasPool_never_debited_subGas_total_witness :
    (ApplyMessage evmSpec msgCall50 1000 stateRich).gp = 1000 ∧
    (3 ≤ 10 ∧ (7 : Nat) = 10 - 3) ∧
    (subGas 2 5 = none ↔ 2 < 5) :=
  ⟨gasPool_never_debited_subGas_total.1 evmSpec msgCall50 1000 stateRich,
    gasPool_never_debited_subGas_total.2.1 10 3 7 (by decide),
    gasPool_never_debited_subGas_total.2.2 2 5⟩

/-- C4 counterexample: a message that passes every check and executes
successfully, after which the gas pool still holds its full prior capacity —
the orchestrator performed no debit before dispatching execution. -/
theorem gasPool_not_debited_on_successful_run :
    (ApplyMessage evmSpec msgCall50 1000 stateRich).err = none ∧
    (ApplyMessage evmSpec msgCall50 1000 stateRich).failed = false ∧
    (ApplyMessage evmSpec msgCall50 1000 stateRich).gp = 1000 := by
  refine ⟨by decide, by decide, rfl⟩

/-- C8: `ApplyMessage` is deterministic: two runs of the same message against
equal prior world states and equal gas-pool capacities produce equal final
states and equal result triples (the embedded transition is a pure function
of its inputs). -/
theorem ApplyMessage_deterministic (evm : EVM) (msg : Message) (gp1 gp2 : Nat)
    (s1 s2 : StateDB) (hs : s1 = s2) (hgp : gp1 = gp2) :
    ApplyMessage evm msg gp1 s1 = ApplyMessage evm msg gp2 s2 := by
  rw [hs, hgp]

/-- C8 witness: determinism instantiated on a concrete run. -/
theorem ApplyMessage_deterministic_witness :
    ApplyMessage evmSpec msgCall50 1000 stateRich =
      ApplyMessage evmSpec msgCall50 1000 stateRich :=
  ApplyMessage_deterministic evmSpec msgCall50 1000 1000 stateRich stateRich
    rfl rfl

/-- C2: for every message that passes the nonce pre-check, `ApplyMessage`
classifies the dispatched execution's outcome: the insufficient-balance VM
error is promoted to the transition's own error with nil return data and
`executionFailed = false`; any other non-nil VM error yields the execution's
return data with `executionFailed = true` and a nil transition error; no VM
error yields the return data with no flag and no error. Moreover a non-nil
transition error can only be an invalid-nonce error or the promoted
insufficient-balance error. -/
theorem ApplyMessage_outcome_classification :
    (∀ evm msg gp s, (preCheck s msg).2 = none →
      ((ApplyMessage evm msg gp s).ret, (ApplyMessage evm msg gp s).failed,
        (ApplyMessage evm msg gp s).err) =
        (if (dispatchResult evm msg s).2.2 = some VMErr.insufficientBalance then
          ([], false, some (Err.vmError VMErr.insufficientBalance))
        else
          ((dispatchResult evm msg s).2.1,
            ((dispatchResult evm msg s).2.2).isSome, (none : Option Err)))) ∧
    (∀ evm msg gp s e, (ApplyMessage evm msg gp s).err = some e →
      (∃ d x, e = Err.invalidNonce d x) ∨
        e = Err.vmError VMErr.insufficientBalance) := by
  constructor
  · intro evm msg gp s hpass
    have ht := TransitionDb_pass evm msg s hpass
    by_cases hv : (dispatchResult evm msg s).2.2 = some VMErr.insufficientBalance <;>
      simp [ApplyMessage, ht, classify, hv]
  · intro evm msg gp s e he
    cases hpc : (preCheck s msg).2 with
    | some e2 =>
      have ht := TransitionDb_fail evm msg s e2 hpc
      have he2 : (ApplyMessage evm msg gp s).err = some e2 := by
        simp [ApplyMessage, ht]
      rw [he2] at he
      obtain ⟨d, x, hshape⟩ := preCheck_err_shape s msg e2 hpc
      exact Or.inl ⟨d, x, Option.some.inj he ▸ hshape⟩
    | none =>
      have ht := TransitionDb_pass evm msg s hpc
      by_cases hv : (dispatchResult evm msg s).2.2 = some VMErr.insufficientBalance
      · have h2 : (ApplyMessage evm msg gp s).err =
            some (Err.vmError VMErr.insufficientBalance) := by
          simp [ApplyMessage, ht, classify, hv]
        rw [h2] at he
        exact Or.inr (Option.some.inj he).symm
      · have h2 : (ApplyMessage evm msg gp s).err = none := by
          simp [ApplyMessage, ht, classify, hv]
        rw [h2] at he
        cases he

/-- C2 witness: the classification applied to a concrete successful run (a
funded call): the result triple is `(nil, false, nil)`. -/
theorem ApplyMessage_outcome_classification_witness :
    (preCheck stateRich msgCall50).2 = none ∧
    ((ApplyMessage evmSpec msgCall50 1000 stateRich).ret,
      (ApplyMessage evmSpec msgCall50 1000 stateRich).failed,
      (ApplyMessage evmSpec msgCall50 1000 stateRich).err) =
      ([], false, none) := by
  refine ⟨by decide, ?_⟩
  have h := ApplyMessage_outcome_classification.1 evmSpec msgCall50 1000
    stateRich (by decide)
  rw [h]
  decide

/-- C3 (amended, spec-modelled call path): when the unconditional initial value
transfer of a call fails for insufficient balance, `ApplyMessage` returns the
insufficient-balance error with nil data and no failed flag, no gas is charged
and no balance moves — but the state is not exactly as before: the sender's
nonce has already been overwritten with its `uint64` successor
`(nonce + 1) % 2 ^ 64` (and absent sender/recipient accounts have been
materialized) before the balance check runs inside the dispatched call. -/
theorem ApplyMessage_insufficient_balance (msg : Message) (gp : Nat)
    (s : StateDB) (t : Address) (hTo : msg.To = some t)
    (hpass : (preCheck s msg).2 = none)
    (hbal : getBalance s msg.From < msg.Value) :
    (ApplyMessage evmSpec msg gp s).err =
      some (.vmError .insufficientBalance) ∧
    (ApplyMessage evmSpec msg gp s).ret = [] ∧
    (ApplyMessage evmSpec msg gp s).failed = false ∧
    (ApplyMessage evmSpec msg gp s).gp = gp ∧
    (∀ a, getBalance (ApplyMessage evmSpec msg gp s).state a = getBalance s a) ∧
    getNonce (ApplyMessage evmSpec msg gp s).state msg.From =
      (getNonce s msg.From + 1) % 2 ^ 64 := by
  have hd := dispatchResult_call evmSpec msg s t hTo
  have hcall : evmSpec.call (callDispatch s msg).1 (callDispatch s msg).2.1
      (callDispatch s msg).2.2 msg.Data msg.Value =
      ((callDispatch s msg).1, [], some .insufficientBalance) := by
    show evmSpecCall (callDispatch s msg).1 (callDispatch s msg).2.1
      (callDispatch s msg).2.2 msg.Data msg.Value =
      ((callDispatch s msg).1, [], some .insufficientBalance)
    unfold evmSpecCall
    rw [callDispatch_sender, getBalance_callDispatch]
    rw [if_pos hbal]
  have hd2 : dispatchResult evmSpec msg s =
      ((callDispatch s msg).1, [], some .insufficientBalance) := by
    rw [hd, hcall]
  have ht := TransitionDb_pass evmSpec msg s hpass
  have hstate : (ApplyMessage evmSpec msg gp s).state =
      (callDispatch s msg).1 := by
    simp [ApplyMessage, ht, hd2, classify]
  refine ⟨?_, ?_, ?_, rfl, ?_, ?_⟩
  · simp [ApplyMessage, ht, hd2, classify]
  · simp [ApplyMessage, ht, hd2, classify]
  · simp [ApplyMessage, ht, hd2, classify]
  · intro a
    rw [hstate, getBalance_callDispatch]
  · rw [hstate, getNonce_callDispatch_self]

/-- C3 witness: sender with balance 10 sends value 50: the insufficient-balance
error is returned and the sender's nonce ends at 1. -/
theorem ApplyMessage_insufficient_balance_witness :
    (preCheck statePoor msgCall50).2 = none ∧
    getBalance statePoor msgCall50.From < msgCall50.Value ∧
    (ApplyMessage evmSpec msgCall50 7 statePoor).err =
      some (.vmError .insufficientBalance) ∧
    getNonce (ApplyMessage evmSpec msgCall50 7 statePoor).state
      msgCall50.From = 1 := by
  have h := ApplyMessage_insufficient_balance msgCall50 7 statePoor 2 rfl
    (by decide) (by decide)
  exact ⟨by decide, by decide, h.1, h.2.2.2.2.2⟩

/-- C3 counterexample: sender (address 1) with balance 10 and nonce 0 sends
value 50: `ApplyMessage` returns the insufficient-balance error, yet the world
state is not exactly as before — the sender's nonce has been incremented
to 1. -/
theorem ApplyMessage_insufficient_balance_mutates_nonce :
    (ApplyMessage evmSpec msgCall50 7 statePoor).err =
      some (.vmError .insufficientBalance) ∧
    getNonce statePoor 1 = 0 ∧
    getNonce (ApplyMessage evmSpec msgCall50 7 statePoor).state 1 = 1 := by
  refine ⟨by decide, rfl, by decide⟩

/-- C5 (amended): nonce-increment discipline of the orchestrator. For a call
message passing the pre-check, the state handed to the call path carries the
sender's nonce replaced by its `uint64` successor `(nonce + 1) % 2 ^ 64` —
an increment by exactly 1 except at nonce `2 ^ 64 - 1`, where it wraps
to 0 — applied exactly once, and no other account's nonce changes; the final
state is exactly whatever the call path returns on that state (so the nonce
is consumed even when the execution fails). For a contract-creation message
the orchestrator hands the creation path a state with every nonce unchanged.
For a message rejected by the pre-check no nonce changes at all. -/
theorem ApplyMessage_nonce_increment_discipline :
    (∀ evm msg gp s t, msg.To = some t → (preCheck s msg).2 = none →
      getNonce (callDispatch s msg).1 msg.From =
        (getNonce s msg.From + 1) % 2 ^ 64 ∧
      (∀ a, a ≠ msg.From → getNonce (callDispatch s msg).1 a = getNonce s a) ∧
      (ApplyMessage evm msg gp s).state =
        (evm.call (callDispatch s msg).1 (callDispatch s msg).2.1
          (callDispatch s msg).2.2 msg.Data msg.Value).1) ∧
    (∀ evm msg gp s, msg.To = none → (preCheck s msg).2 = none →
      (∀ a, getNonce (createDispatch s msg).1 a = getNonce s a) ∧
      (ApplyMessage evm msg gp s).state =
        (evm.create (createDispatch s msg).1 (createDispatch s msg).2
          msg.Data msg.Value).1) ∧
    (∀ evm msg gp s e, (preCheck s msg).2 = some e →
      ∀ a, getNonce (ApplyMessage evm msg gp s).state a = getNonce s a) := by
  refine ⟨?_, ?_, ?_⟩
  · intro evm msg gp s t hTo hpass
    have ht := TransitionDb_pass evm msg s hpass
    have hd := dispatchResult_call evm msg s t hTo
    refine ⟨getNonce_callDispatch_self s msg,
      fun a ha => getNonce_callDispatch_ne s msg a ha, ?_⟩
    simp [ApplyMessage, ht, hd, classify_state]
  · intro evm msg gp s hTo hpass
    have ht := TransitionDb_pass evm msg s hpass
    have hd := dispatchResult_create evm msg s hTo
    refine ⟨fun a => getNonce_createDispatch s msg a, ?_⟩
    simp [ApplyMessage, ht, hd, classify_state]
  · intro evm msg gp s e hfail a
    have ht := TransitionDb_fail evm msg s e hfail
    have hstate : (ApplyMessage evm msg gp s).state = (stFrom s msg).1 := by
      simp [ApplyMessage, ht, preCheck_fst]
    rw [hstate, getNonce_stFrom]

/-- C5 witness: the discipline instantiated on a funded call (nonce 0 becomes
1 at dispatch), a creation message (nonce stays 0) and a pre-check-rejected
message (nonce stays 0). -/
theorem ApplyMessage_nonce_increment_discipline_witness :
    getNonce (callDispatch stateRich msgCall50).1 1 = 1 ∧
    getNonce (createDispatch stateRich msgCreate).1 1 = 0 ∧
    getNonce (ApplyMessage evmSpec msgNonceMismatch 100 stateRich).state 1 =
      0 := by
  refine ⟨?_, ?_, ?_⟩
  · exact (ApplyMessage_nonce_increment_discipline.1 evmSpec msgCall50 1000
      stateRich 2 rfl (by decide)).1
  · exact (ApplyMessage_nonce_increment_discipline.2.1 evmSpec msgCreate 1000
      stateRich rfl (by decide)).1 1
  · exact ApplyMessage_nonce_increment_discipline.2.2 evmSpec msgNonceMismatch
      100 stateRich (Err.invalidNonce 5 0) (by decide) 1

/-- C5 counterexample: at sender nonce `2 ^ 64 - 1` — which passes the nonce
pre-check when the declared nonce matches — the Go `uint64` increment wraps:
the nonce handed to the call path is 0, not the prior nonce plus 1. -/
theorem callDispatch_nonce_wraps_at_uint64_max :
    (preCheck stateMaxNonce msgMaxNonce).2 = none ∧
    getNonce (callDispatch stateMaxNonce msgMaxNonce).1 1 = 0 ∧
    getNonce stateMaxNonce 1 + 1 = 2 ^ 64 ∧
    getNonce (callDispatch stateMaxNonce msgMaxNonce).1 1 ≠
      getNonce stateMaxNonce 1 + 1 := by
  refine ⟨by decide, by decide, by decide, by decide⟩

/-- C6: the homestead instruction table equals the frontier table at every
opcode byte other than `DELEGATECALL` — no prior entry is removed or altered —
and at `DELEGATECALL` the homestead table holds a valid descriptor where the
frontier table holds the invalid zero descriptor. -/
theorem homestead_extends_frontier :
    (∀ b : Fin 256, b.val ≠ DELEGATECALL →
      NewHomesteadInstructionSet b.val = NewFrontierInstructionSet b.val) ∧
    (NewHomesteadInstructionSet DELEGATECALL).valid = true ∧
    (NewFrontierInstructionSet DELEGATECALL).valid = false ∧
    NewFrontierInstructionSet DELEGATECALL = {} := by
  refine ⟨?_, by decide, by decide, by decide⟩
  intro b hb
  unfold NewHomesteadInstructionSet
  rw [if_neg hb]

/-- C6 witness: the tables agree at opcode byte 0 (`STOP`), a byte other than
`DELEGATECALL`. -/
theorem homestead_extends_frontier_witness :
    ((0 : Fin 256).val ≠ DELEGATECALL) ∧
    NewHomesteadInstructionSet (0 : Fin 256).val =
      NewFrontierInstructionSet (0 : Fin 256).val :=
  ⟨by decide, homestead_extends_frontier.1 0 (by decide)⟩

/-- C7: at every index, each of the two instruction tables holds either the
zero descriptor (whose `valid` is `false`) or a descriptor with
`valid = true` whose `execute` and `validateStack` function pointers are both
non-nil. -/
theorem instruction_tables_wellformed :
    ∀ b : Fin 256,
      (NewFrontierInstructionSet b.val = {} ∨
        ((NewFrontierInstructionSet b.val).valid = true ∧
          ((NewFrontierInstructionSet b.val).execute).isSome = true ∧
          ((NewFrontierInstructionSet b.val).validateStack).isSome = true)) ∧
      (NewHomesteadInstructionSet b.val = {} ∨
        ((NewHomesteadInstructionSet b.val).valid = true ∧
          ((NewHomesteadInstructionSet b.val).execute).isSome = true ∧
          ((NewHomesteadInstructionSet b.val).validateStack).isSome = true)) ∧
      ({} : operation).valid = false := by
  decide

/-- C9: building the homestead table does not disturb the frontier table: the
package-level `frontierInstructionSet` value agrees with a fresh
`NewFrontierInstructionSet()` result at every index (in particular its
`DELEGATECALL` entry is still invalid), and the `DELEGATECALL` overlay is
present only in the homestead value. In the source, `[256]operation` is a Go
array value, so the homestead builder receives and mutates a copy, which is
what this functional embedding captures. -/
theorem frontier_table_unchanged_after_homestead_build :
    (∀ b : Fin 256,
      frontierInstructionSet b.val = NewFrontierInstructionSet b.val) ∧
    (∀ b : Fin 256,
      homesteadInstructionSet b.val = NewHomesteadInstructionSet b.val) ∧
    (frontierInstructionSet DELEGATECALL).valid = false ∧
    (homesteadInstructionSet DELEGATECALL).valid = true :=
  ⟨fun _ => rfl, fun _ => rfl, by decide, by decide⟩

/-- C10: no descriptor in either table sets the `reverts` flag — the flag is
declared but never installed by either builder — and the halting opcodes
`STOP`, `RETURN` and `SELFDESTRUCT` are plain halts (`halts = true`). -/
theorem no_descriptor_reverts :
    (∀ b : Fin 256, (NewFrontierInstructionSet b.val).reverts = false ∧
      (NewHomesteadInstructionSet b.val).reverts = false) ∧
    (NewFrontierInstructionSet STOP).halts = true ∧
    (NewFrontierInstructionSet RETURN).halts = true ∧
    (NewFrontierInstructionSet SELFDESTRUCT).halts = true := by
  decide

end MyGeth
